import Mathlib

/-!
Verification of the EchoLens simulation-supervision core.

This file gives a shallow embedding, in Lean 4, of the parts of
`backend/app/services/simulation_runner.py` and
`backend/app/services/simulation_ipc.py` that the specification's claims
talk about:

* the run-state data model (`SimulationRunState`, `add_action`, `to_dict`);
* the incremental action-log ingestor (`_read_action_log`) and the monitor
  loop's final read pass and exit classification (`_monitor_simulation`);
* the platform-completion check (`_check_all_platforms_completed`);
* the duplicate-start guard of `start_simulation`;
* the file-mailbox IPC client (`send_command`) and server (`send_response`);
* `cleanup_simulation_logs`.

Python dictionaries holding JSON values are abstracted as association
lists of strings; wall-clock timestamps are threaded as explicit string
parameters (`now`); the file system is modelled explicitly (a log file is
a list of parsed lines, the IPC mailbox is a pair of directory listings,
the run directory is a list of `(run id, relative path)` pairs).
-/

/-- Runner state machine (`RunnerStatus` in `simulation_runner.py`). -/
inductive RunnerStatus where
  | idle
  | starting
  | running
  | paused
  | stopping
  | stopped
  | completed
  | failed
deriving DecidableEq, Repr

/-- The `.value` string of a `RunnerStatus` member. -/
def RunnerStatus.value : RunnerStatus → String
  | .idle => "idle"
  | .starting => "starting"
  | .running => "running"
  | .paused => "paused"
  | .stopping => "stopping"
  | .stopped => "stopped"
  | .completed => "completed"
  | .failed => "failed"

/-- One agent action record (`AgentAction` dataclass).  The `action_args`
JSON object is abstracted as an association list of strings. -/
structure AgentAction where
  round_num : Int
  timestamp : String
  platform : String
  agent_id : Int
  agent_name : String
  action_type : String
  action_args : List (String × String) := []
  result : Option String := none
  success : Bool := true
deriving DecidableEq, Repr

/-- Per-round summary (`RoundSummary` dataclass).  Present for completeness
of the data model; the monitor loop under verification never appends to
`SimulationRunState.rounds`. -/
structure RoundSummary where
  round_num : Int
  start_time : String
  end_time : Option String := none
  simulated_hour : Int := 0
  twitter_actions : Nat := 0
  reddit_actions : Nat := 0
  active_agents : List Int := []
  actions : List AgentAction := []
deriving DecidableEq, Repr

/-- Live run state (`SimulationRunState` dataclass), with the dataclass
defaults.  `updated_at` is produced by a `datetime.now()` factory in the
source; here every constructor site supplies it explicitly. -/
structure SimulationRunState where
  simulation_id : String
  runner_status : RunnerStatus := .idle
  current_round : Int := 0
  total_rounds : Int := 0
  simulated_hours : Int := 0
  total_simulation_hours : Int := 0
  twitter_current_round : Int := 0
  reddit_current_round : Int := 0
  twitter_simulated_hours : Int := 0
  reddit_simulated_hours : Int := 0
  twitter_running : Bool := false
  reddit_running : Bool := false
  twitter_actions_count : Nat := 0
  reddit_actions_count : Nat := 0
  twitter_completed : Bool := false
  reddit_completed : Bool := false
  rounds : List RoundSummary := []
  recent_actions : List AgentAction := []
  max_recent_actions : Nat := 50
  started_at : Option String := none
  updated_at : String := ""
  completed_at : Option String := none
  error : Option String := none
  process_pid : Option Int := none
deriving DecidableEq, Repr

/-- The state created by the dataclass constructor with only
`simulation_id` supplied (all other fields defaulted); `now` is the
timestamp the `updated_at` default factory produces. -/
def initial_run_state (simulation_id now : String) : SimulationRunState :=
  { simulation_id := simulation_id, updated_at := now }

/-- `SimulationRunState.add_action`: push the action onto the front of the
recent-actions buffer, truncate past capacity, bump the per-platform
counter (`twitter` exactly, anything else counts as reddit), refresh
`updated_at`. -/
def add_action (st : SimulationRunState) (action : AgentAction) (now : String) :
    SimulationRunState :=
  let recent0 := action :: st.recent_actions
  let recent :=
    if recent0.length > st.max_recent_actions then
      recent0.take st.max_recent_actions
    else recent0
  let st1 := { st with recent_actions := recent }
  let st2 :=
    if action.platform = "twitter" then
      { st1 with twitter_actions_count := st1.twitter_actions_count + 1 }
    else
      { st1 with reddit_actions_count := st1.reddit_actions_count + 1 }
  { st2 with updated_at := now }

/-- Truncation toward zero, as Python's `int()` applied to a float. -/
def pyTrunc (q : ℚ) : Int :=
  if 0 ≤ q then Int.floor q else Int.ceil q

/-- Python's `round` ties-to-even rounding to an integer, on exact
rationals. -/
def pyRoundHalfEven (q : ℚ) : Int :=
  let f := Int.floor q
  let frac := q - (f : ℚ)
  if frac < 1/2 then f
  else if 1/2 < frac then f + 1
  else if f % 2 = 0 then f else f + 1

/-- Python's `round(x, 1)`: round to one decimal place. -/
def round_to_one_decimal (q : ℚ) : ℚ :=
  (pyRoundHalfEven (q * 10) : ℚ) / 10

/-- The dictionary produced by `SimulationRunState.to_dict`, one field per
JSON key. -/
structure RunStateDict where
  simulation_id : String
  runner_status : String
  current_round : Int
  total_rounds : Int
  simulated_hours : Int
  total_simulation_hours : Int
  progress_percent : ℚ
  twitter_current_round : Int
  reddit_current_round : Int
  twitter_simulated_hours : Int
  reddit_simulated_hours : Int
  twitter_running : Bool
  reddit_running : Bool
  twitter_completed : Bool
  reddit_completed : Bool
  twitter_actions_count : Nat
  reddit_actions_count : Nat
  total_actions_count : Nat
  started_at : Option String
  updated_at : String
  completed_at : Option String
  error : Option String
  process_pid : Option Int
deriving DecidableEq, Repr

/-- `SimulationRunState.to_dict`.  `progress_percent` is
`round(current_round / max(total_rounds, 1) * 100, 1)`. -/
def to_dict (st : SimulationRunState) : RunStateDict :=
  { simulation_id := st.simulation_id
    runner_status := st.runner_status.value
    current_round := st.current_round
    total_rounds := st.total_rounds
    simulated_hours := st.simulated_hours
    total_simulation_hours := st.total_simulation_hours
    progress_percent :=
      round_to_one_decimal
        ((st.current_round : ℚ) / ((max st.total_rounds 1 : Int) : ℚ) * 100)
    twitter_current_round := st.twitter_current_round
    reddit_current_round := st.reddit_current_round
    twitter_simulated_hours := st.twitter_simulated_hours
    reddit_simulated_hours := st.reddit_simulated_hours
    twitter_running := st.twitter_running
    reddit_running := st.reddit_running
    twitter_completed := st.twitter_completed
    reddit_completed := st.reddit_completed
    twitter_actions_count := st.twitter_actions_count
    reddit_actions_count := st.reddit_actions_count
    total_actions_count := st.twitter_actions_count + st.reddit_actions_count
    started_at := st.started_at
    updated_at := st.updated_at
    completed_at := st.completed_at
    error := st.error
    process_pid := st.process_pid }

/-! ## The action-log ingestor (`_read_action_log` and friends) -/

/-- An `event`-type record in an `actions.jsonl` line (`"event_type" in
action_data`).  `round` abstracts `action_data.get("round", 0)` and
`simulated_hours` abstracts `action_data.get("simulated_hours", 0)` as used
by the `round_end` branch. -/
structure LogEvent where
  event_type : String
  round : Int := 0
  simulated_hours : Int := 0
deriving DecidableEq, Repr

/-- The payload of an action line, with the defaults `_read_action_log`
applies to absent keys already folded in. -/
structure ActionData where
  round : Int := 0
  timestamp : String := ""
  agent_id : Int := 0
  agent_name : String := ""
  action_type : String := ""
  action_args : List (String × String) := []
  result : Option String := none
  success : Bool := true
deriving DecidableEq, Repr

/-- One line of an `actions.jsonl` file, after stripping and JSON parsing:
empty after strip, unparseable JSON, an event record, or an action
record. -/
inductive LogLine where
  | blank
  | invalid
  | event (e : LogEvent)
  | action (a : ActionData)
deriving DecidableEq, Repr

/-- `SimulationRunner._check_all_platforms_completed`: a platform is
enabled iff its `actions.jsonl` exists; every enabled platform must be
completed and at least one platform must be enabled. -/
def check_all_platforms_completed (twitterEnabled redditEnabled : Bool)
    (st : SimulationRunState) : Bool :=
  if twitterEnabled && !st.twitter_completed then false
  else if redditEnabled && !st.reddit_completed then false
  else twitterEnabled || redditEnabled

/-- The body of `_read_action_log`'s per-line loop: route event lines to
completion/round bookkeeping and action lines to `add_action`.
`twitterEnabled`/`redditEnabled` are the `os.path.exists` answers consulted
by `_check_all_platforms_completed` while processing a `simulation_end`
event; `now` is the `datetime.now()` timestamp. -/
def process_line (platform : String) (twitterEnabled redditEnabled : Bool)
    (now : String) (st : SimulationRunState) (l : LogLine) : SimulationRunState :=
  match l with
  | .blank => st
  | .invalid => st
  | .event e =>
    if e.event_type = "simulation_end" then
      let st1 :=
        if platform = "twitter" then
          { st with twitter_completed := true, twitter_running := false }
        else if platform = "reddit" then
          { st with reddit_completed := true, reddit_running := false }
        else st
      if check_all_platforms_completed twitterEnabled redditEnabled st1 then
        { st1 with runner_status := .completed, completed_at := some now }
      else st1
    else if e.event_type = "round_end" then
      let st1 :=
        if platform = "twitter" then
          { st with
            twitter_current_round :=
              if e.round > st.twitter_current_round then e.round
              else st.twitter_current_round,
            twitter_simulated_hours := e.simulated_hours }
        else if platform = "reddit" then
          { st with
            reddit_current_round :=
              if e.round > st.reddit_current_round then e.round
              else st.reddit_current_round,
            reddit_simulated_hours := e.simulated_hours }
        else st
      let st2 :=
        if e.round > st1.current_round then { st1 with current_round := e.round }
        else st1
      { st2 with
        simulated_hours := max st2.twitter_simulated_hours st2.reddit_simulated_hours }
    else st
  | .action a =>
    let act : AgentAction :=
      { round_num := a.round
        timestamp := a.timestamp
        platform := platform
        agent_id := a.agent_id
        agent_name := a.agent_name
        action_type := a.action_type
        action_args := a.action_args
        result := a.result
        success := a.success }
    let st1 := add_action st act now
    if act.round_num ≠ 0 ∧ act.round_num > st1.current_round then
      { st1 with current_round := act.round_num }
    else st1

/-- `_read_action_log` on the success path: seek to `position`, process
every remaining line, return the new state together with `f.tell()` (the
end of the file as currently visible).  The exception path (open failing
on a momentarily missing or locked file) returns the state and position
unchanged and is modelled at the polling layer (`monitor_poll_step`). -/
def read_action_log (platform : String) (twitterEnabled redditEnabled : Bool)
    (now : String) (file : List LogLine) (position : Nat)
    (st : SimulationRunState) : SimulationRunState × Nat :=
  ((file.drop position).foldl (process_line platform twitterEnabled redditEnabled now) st,
   file.length)

/-- One monitor tick for one platform log: `seen` is how many lines of the
final file had been flushed and were visible at that tick, `ok` is whether
the read attempt succeeded (a failed read is swallowed and the offset left
unchanged, per the `except` branch of `_read_action_log`). -/
structure LogPoll where
  seen : Nat
  ok : Bool
deriving DecidableEq, Repr

/-- Apply one poll to the (state, byte-offset) pair kept by
`_monitor_simulation` for one platform. -/
def monitor_poll_step (platform : String) (twitterEnabled redditEnabled : Bool)
    (now : String) (file : List LogLine) (sp : SimulationRunState × Nat)
    (p : LogPoll) : SimulationRunState × Nat :=
  if p.ok then
    read_action_log platform twitterEnabled redditEnabled now (file.take p.seen) sp.2 sp.1
  else sp

/-- The monitor loop's sequence of read attempts against one platform's
log during the worker's lifetime. -/
def monitor_polls (platform : String) (twitterEnabled redditEnabled : Bool)
    (now : String) (file : List LogLine) (polls : List LogPoll)
    (sp : SimulationRunState × Nat) : SimulationRunState × Nat :=
  polls.foldl (monitor_poll_step platform twitterEnabled redditEnabled now file) sp

/-- Recognizer of action lines: a parsed line without an event-type tag. -/
def is_action_line : LogLine → Bool
  | .action _ => true
  | _ => false

/-- Number of action lines in a log file. -/
def count_action_lines (l : List LogLine) : Nat :=
  l.countP is_action_line

/-- The per-platform counter `add_action` increments for actions tagged
with this platform string (exactly `"twitter"` goes to the twitter
counter, everything else to the reddit counter). -/
def platform_actions_count (platform : String) (st : SimulationRunState) : Nat :=
  if platform = "twitter" then st.twitter_actions_count else st.reddit_actions_count

/-- Python `s[-n:]`: the last `n` characters of `s` (all of `s` when it is
shorter). -/
def lastChars (n : Nat) (s : String) : String :=
  s.drop (s.length - n)

/-- The tail of `_monitor_simulation` after `process.poll()` reports exit:
one final read pass over each existing platform log, then classification
by exit code.  `mainLog` is the content of `simulation.log` when that file
exists. -/
def monitor_finalize (twitterEnabled redditEnabled : Bool)
    (twitterFile redditFile : List LogLine) (twitterPos redditPos : Nat)
    (exitCode : Int) (mainLog : Option String) (now : String)
    (st : SimulationRunState) : SimulationRunState :=
  let st1 :=
    if twitterEnabled then
      (read_action_log "twitter" twitterEnabled redditEnabled now twitterFile twitterPos st).1
    else st
  let st2 :=
    if redditEnabled then
      (read_action_log "reddit" twitterEnabled redditEnabled now redditFile redditPos st1).1
    else st1
  if exitCode = 0 then
    { st2 with
      runner_status := .completed
      completed_at := some now
      twitter_running := false
      reddit_running := false }
  else
    let errorInfo := match mainLog with
      | some s => lastChars 2000 s
      | none => ""
    { st2 with
      runner_status := .failed
      error := some ("进程退出码: " ++ toString exitCode ++ ", 错误: " ++ errorInfo)
      twitter_running := false
      reddit_running := false }

/-! ## The file-mailbox IPC protocol (`simulation_ipc.py`) -/

/-- `CommandStatus` enum. -/
inductive CommandStatus where
  | pending
  | processing
  | completed
  | failed
deriving DecidableEq, Repr

/-- `IPCResponse` dataclass.  The `result` JSON object is abstracted as an
association list of strings. -/
structure IPCResponse where
  command_id : String
  status : CommandStatus
  result : Option (List (String × String)) := none
  error : Option String := none
  timestamp : String := ""
deriving DecidableEq, Repr

/-- The two mailbox directories: `ipc_commands` is the set of command ids
whose `{command_id}.json` file exists, `ipc_responses` maps a command id to
the response stored in its `{command_id}.json` file. -/
structure Mailbox where
  commands : List String
  responses : List (String × IPCResponse)
deriving DecidableEq, Repr

/-- `os.path.exists` / `json.load` on `responses_dir/{command_id}.json`. -/
def findResponse (mb : Mailbox) (command_id : String) : Option IPCResponse :=
  (mb.responses.find? (fun pr => pr.1 == command_id)).map Prod.snd

/-- Writing `commands_dir/{command_id}.json`. -/
def writeCommandFile (mb : Mailbox) (command_id : String) : Mailbox :=
  { mb with commands := command_id :: mb.commands }

/-- `os.remove` on `commands_dir/{command_id}.json` (with `OSError`,
i.e. the file already being gone, swallowed). -/
def removeCommandFile (mb : Mailbox) (command_id : String) : Mailbox :=
  { mb with commands := mb.commands.filter (fun c => c != command_id) }

/-- `os.remove` on `responses_dir/{command_id}.json` (errors swallowed). -/
def removeResponseFile (mb : Mailbox) (command_id : String) : Mailbox :=
  { mb with responses := mb.responses.filter (fun pr => pr.1 != command_id) }

/-- `SimulationIPCServer.send_response`: write the response file, then
delete the command file. -/
def send_response (mb : Mailbox) (response : IPCResponse) : Mailbox :=
  removeCommandFile
    { mb with responses := (response.command_id, response) :: mb.responses }
    response.command_id

/-- What the client's wait loop produces: a parsed response, or the
`TimeoutError` raised when the deadline passes. -/
inductive SendOutcome where
  | ok (response : IPCResponse)
  | timedOut
deriving DecidableEq, Repr

/-- The polling loop of `SimulationIPCClient.send_command`.  `fuel` is the
number of remaining `while` iterations before `time.time() - start_time <
timeout` fails; `steps k` is whatever the server interleaves just before
the client's `k`-th existence check.  On finding the response the client
deletes both files and returns it; on timeout it deletes the command file
and raises. -/
def poll_for_response (command_id : String) (steps : Nat → Mailbox → Mailbox) :
    Nat → Nat → Mailbox → SendOutcome × Mailbox
  | _, 0, mb => (SendOutcome.timedOut, removeCommandFile mb command_id)
  | k, fuel + 1, mb =>
    let mb1 := steps k mb
    match findResponse mb1 command_id with
    | some response =>
      (SendOutcome.ok response,
       removeResponseFile (removeCommandFile mb1 command_id) command_id)
    | none => poll_for_response command_id steps (k + 1) fuel mb1

/-- Number of existence checks the loop performs: it checks at elapsed
times `0, poll_interval, 2 * poll_interval, …` while the elapsed time is
below `timeout`, i.e. `⌈timeout / poll_interval⌉` times. -/
def numChecks (timeout poll_interval : ℚ) : Nat :=
  ⌈timeout / poll_interval⌉₊

/-- `SimulationIPCClient.send_command` (the command id is drawn from
`uuid.uuid4` in the source and passed explicitly here): write the command
file, then poll the responses directory until the response appears or the
timeout elapses. -/
def send_command (command_id : String) (timeout poll_interval : ℚ)
    (steps : Nat → Mailbox → Mailbox) (mb : Mailbox) : SendOutcome × Mailbox :=
  poll_for_response command_id steps 0 (numChecks timeout poll_interval)
    (writeCommandFile mb command_id)

/-- A server that performs `send_response response` exactly once, just
before the client's `j`-th poll, and does nothing at any other time. -/
def serverRespondsAt (j : Nat) (response : IPCResponse) :
    Nat → Mailbox → Mailbox :=
  fun k mb => if k = j then send_response mb response else mb

/-! ## `start_simulation` -/

/-- The `ValueError`s `start_simulation` can raise, plus the re-raised
launch failure. -/
inductive StartError where
  | alreadyRunning
  | configMissing
  | graphIdMissing
  | scriptMissing
  | launchFailure
deriving DecidableEq, Repr

/-- Externally visible effects of `start_simulation`, in program order. -/
inductive StartEffect where
  | saveState (st : SimulationRunState)
  | createGraphUpdater (graph_id : String)
  | launchProcess
  | startMonitor
deriving DecidableEq, Repr

/-- Result of a `start_simulation` call: the raised error, if any, and the
effects performed before returning or raising. -/
structure StartOutcome where
  error : Option StartError
  effects : List StartEffect
deriving DecidableEq, Repr

/-- The `time_config` section of `simulation_config.json`. -/
structure TimeConfig where
  total_simulation_hours : Int := 72
  minutes_per_round : Int := 30
deriving DecidableEq, Repr

/-- `total_rounds = int(total_hours * 60 / minutes_per_round)`, truncated
to `max_rounds` when that is given and positive. -/
def computeTotalRounds (cfg : TimeConfig) (max_rounds : Option Int) : Int :=
  let base := pyTrunc ((cfg.total_simulation_hours * 60 : Int) /
    (cfg.minutes_per_round : ℚ))
  match max_rounds with
  | some m => if m > 0 then min base m else base
  | none => base

/-- `start_simulation` after the duplicate-start guard has passed: config
check, initial STARTING snapshot, graph-updater setup, script selection,
process launch, RUNNING snapshot, monitor start.  `launchOk` tells whether
`subprocess.Popen` succeeds, `launchErrorMsg` is `str(e)` otherwise. -/
def start_simulation_body (simulation_id : String) (configExists : Bool)
    (cfg : TimeConfig) (max_rounds : Option Int)
    (enable_graph_memory_update : Bool) (graph_id : Option String)
    (platform : String) (scriptExists : Bool) (launchOk : Bool)
    (launchErrorMsg : String) (pid : Int) (now : String) : StartOutcome :=
  if !configExists then { error := some .configMissing, effects := [] }
  else
    let st1 : SimulationRunState :=
      { simulation_id := simulation_id
        runner_status := .starting
        total_rounds := computeTotalRounds cfg max_rounds
        total_simulation_hours := cfg.total_simulation_hours
        started_at := some now
        updated_at := now }
    let eff1 : List StartEffect := [StartEffect.saveState st1]
    if enable_graph_memory_update && graph_id.isNone then
      { error := some .graphIdMissing, effects := eff1 }
    else
      let eff2 := match enable_graph_memory_update, graph_id with
        | true, some g => eff1 ++ [StartEffect.createGraphUpdater g]
        | _, _ => eff1
      let st2 :=
        if platform = "twitter" then { st1 with twitter_running := true }
        else if platform = "reddit" then { st1 with reddit_running := true }
        else { st1 with twitter_running := true, reddit_running := true }
      if !scriptExists then { error := some .scriptMissing, effects := eff2 }
      else if launchOk then
        let st3 := { st2 with process_pid := some pid, runner_status := .running }
        { error := none
          effects := eff2 ++
            [StartEffect.launchProcess, StartEffect.saveState st3,
             StartEffect.startMonitor] }
      else
        let st3 := { st2 with runner_status := .failed, error := some launchErrorMsg }
        { error := some .launchFailure
          effects := eff2 ++ [StartEffect.saveState st3] }

/-- `SimulationRunner.start_simulation`: reject a run whose current state
is RUNNING or STARTING before doing anything else; otherwise proceed with
`start_simulation_body`.  `existing` is what `get_run_state` returns. -/
def start_simulation (simulation_id : String)
    (existing : Option SimulationRunState) (configExists : Bool)
    (cfg : TimeConfig) (max_rounds : Option Int)
    (enable_graph_memory_update : Bool) (graph_id : Option String)
    (platform : String) (scriptExists : Bool) (launchOk : Bool)
    (launchErrorMsg : String) (pid : Int) (now : String) : StartOutcome :=
  match existing with
  | some st =>
    if st.runner_status = RunnerStatus.running ∨
        st.runner_status = RunnerStatus.starting then
      { error := some .alreadyRunning, effects := [] }
    else
      start_simulation_body simulation_id configExists cfg max_rounds
        enable_graph_memory_update graph_id platform scriptExists launchOk
        launchErrorMsg pid now
  | none =>
    start_simulation_body simulation_id configExists cfg max_rounds
      enable_graph_memory_update graph_id platform scriptExists launchOk
      launchErrorMsg pid now

/-! ## `cleanup_simulation_logs` -/

/-- The run-scoped artifacts `cleanup_simulation_logs` removes from a
run's directory: the files of `files_to_delete` plus the per-platform
`actions.jsonl` inside the `twitter` and `reddit` directories. -/
def run_scoped_artifacts : List String :=
  ["run_state.json", "simulation.log", "stdout.log", "stderr.log",
   "twitter_simulation.db", "reddit_simulation.db", "env_status.json",
   "twitter/actions.jsonl", "reddit/actions.jsonl"]

/-- `SimulationRunner.cleanup_simulation_logs`, as its net effect on the
upload tree.  A file is a pair `(run id, path relative to that run's
directory)`; only the listed artifacts of the given run are removed. -/
def cleanup_simulation_logs (fs : List (String × String))
    (simulation_id : String) : List (String × String) :=
  fs.filter (fun f => !(f.1 == simulation_id && run_scoped_artifacts.contains f.2))

/-! ## Basic lemmas about `add_action` -/

theorem add_action_recent_actions (st : SimulationRunState) (a : AgentAction)
    (now : String) :
    (add_action st a now).recent_actions
      = (a :: st.recent_actions).take st.max_recent_actions := by
  unfold add_action
  by_cases h : (a :: st.recent_actions).length > st.max_recent_actions
  · simp only [h, if_true]
    split <;> rfl
  · have hle : (a :: st.recent_actions).length ≤ st.max_recent_actions :=
      Nat.le_of_not_lt h
    simp only [h, if_false]
    split <;> simp [List.take_of_length_le hle]

theorem add_action_max_recent (st : SimulationRunState) (a : AgentAction)
    (now : String) :
    (add_action st a now).max_recent_actions = st.max_recent_actions := by
  unfold add_action
  split <;> rfl

theorem add_action_counts (st : SimulationRunState) (a : AgentAction)
    (now : String) :
    (add_action st a now).twitter_actions_count
        = st.twitter_actions_count + (if a.platform = "twitter" then 1 else 0)
    ∧ (add_action st a now).reddit_actions_count
        = st.reddit_actions_count + (if a.platform = "twitter" then 0 else 1) := by
  unfold add_action
  by_cases h : a.platform = "twitter" <;> simp [h]

/-- All `add_action` calls a run performs, in order, each with its
`datetime.now()` timestamp. -/
def process_actions (st : SimulationRunState)
    (l : List (AgentAction × String)) : SimulationRunState :=
  l.foldl (fun s p => add_action s p.1 p.2) st

theorem take_append_take {α : Type} (x y : List α) (n : Nat) :
    (x ++ y.take n).take n = (x ++ y).take n := by
  rw [List.take_append_eq_append_take, List.take_append_eq_append_take,
    List.take_take, Nat.min_eq_left (Nat.sub_le n x.length)]

theorem process_actions_recent :
    ∀ (l : List (AgentAction × String)) (st : SimulationRunState),
      st.recent_actions.length ≤ st.max_recent_actions →
      (process_actions st l).recent_actions
          = ((l.map Prod.fst).reverse ++ st.recent_actions).take st.max_recent_actions
      ∧ (process_actions st l).max_recent_actions = st.max_recent_actions := by
  intro l
  induction l with
  | nil =>
    intro st h
    constructor
    · simp [process_actions, List.take_of_length_le h]
    · rfl
  | cons p l ih =>
    intro st h
    have hmax := add_action_max_recent st p.1 p.2
    have hrec := add_action_recent_actions st p.1 p.2
    have hlen : (add_action st p.1 p.2).recent_actions.length
        ≤ (add_action st p.1 p.2).max_recent_actions := by
      rw [hrec, hmax]
      exact List.length_take_le _ _
    obtain ⟨h1, h2⟩ := ih (add_action st p.1 p.2) hlen
    have hstep : process_actions st (p :: l)
        = process_actions (add_action st p.1 p.2) l := rfl
    refine ⟨?_, ?_⟩
    · rw [hstep, h1, hrec, hmax, take_append_take]
      congr 1
      simp
    · rw [hstep, h2, hmax]

/-- C7: the recent-actions buffer of a run's state is bounded: after any
sequence of `add_action` calls from the freshly constructed state it holds
at most 50 entries, newest first (the buffer equals the reversed sequence
of ingested actions truncated to the 50 newest; in particular after
exactly 3 actions it holds exactly those 3 entries, newest first), and
past capacity the oldest entries are the ones dropped. -/
theorem c7_recent_actions_bounded_newest_first (simulation_id now : String)
    (l : List (AgentAction × String)) :
    (process_actions (initial_run_state simulation_id now) l).recent_actions
        = (l.map Prod.fst).reverse.take 50
    ∧ (process_actions (initial_run_state simulation_id now) l).recent_actions.length
        ≤ 50 := by
  obtain ⟨h1, -⟩ := process_actions_recent l (initial_run_state simulation_id now)
    (by simp [initial_run_state])
  have h1' : (process_actions (initial_run_state simulation_id now) l).recent_actions
      = (l.map Prod.fst).reverse.take 50 := by
    simpa [initial_run_state] using h1
  exact ⟨h1', by rw [h1']; exact List.length_take_le _ _⟩

/-- C9: `add_action` partitions ingested actions by an exact string test:
the twitter counter is bumped only for platform `"twitter"`, any other
platform value (empty or unrecognized included) bumps the reddit counter,
and hence the total actions count grows by exactly one per call. -/
theorem c9_platform_partition_totals :
    (∀ (st : SimulationRunState) (a : AgentAction) (now : String),
      (add_action st a now).twitter_actions_count
          = st.twitter_actions_count + (if a.platform = "twitter" then 1 else 0)
      ∧ (add_action st a now).reddit_actions_count
          = st.reddit_actions_count + (if a.platform = "twitter" then 0 else 1))
    ∧ (∀ (st : SimulationRunState) (l : List (AgentAction × String)),
      (to_dict (process_actions st l)).total_actions_count
          = (to_dict st).total_actions_count + l.length) := by
  refine ⟨fun st a now => add_action_counts st a now, fun st l => ?_⟩
  induction l generalizing st with
  | nil => rfl
  | cons p l ih =>
    have hstep : process_actions st (p :: l)
        = process_actions (add_action st p.1 p.2) l := rfl
    obtain ⟨h1, h2⟩ := add_action_counts st p.1 p.2
    rw [hstep, ih (add_action st p.1 p.2)]
    simp only [to_dict, h1, h2, List.length_cons]
    by_cases hp : p.1.platform = "twitter" <;> simp [hp] <;> omega

theorem pyRoundHalfEven_intCast (n : Int) : pyRoundHalfEven (n : ℚ) = n := by
  simp [pyRoundHalfEven]

/-- C10: `to_dict` guards its progress computation against division by
zero: the denominator is `max(total_rounds, 1)`, so a state with
`total_rounds = 0` serializes with `progress_percent = current_round *
100`. -/
theorem c10_progress_percent_division_guarded (st : SimulationRunState)
    (h : st.total_rounds = 0) :
    (to_dict st).progress_percent = (st.current_round : ℚ) * 100 := by
  simp only [to_dict, round_to_one_decimal, h]
  norm_num
  have hcast : (st.current_round : ℚ) * 100 * 10
      = ((st.current_round * 1000 : Int) : ℚ) := by push_cast; ring
  rw [hcast, pyRoundHalfEven_intCast]
  push_cast; ring

/-- A concrete state with `total_rounds = 0` for the C10 witness. -/
def c10_example_state : SimulationRunState :=
  { initial_run_state "sim_1" "T0" with current_round := 7 }

theorem c10_progress_percent_division_guarded_witness :
    (to_dict c10_example_state).progress_percent
      = (c10_example_state.current_round : ℚ) * 100 :=
  c10_progress_percent_division_guarded c10_example_state rfl

/-! ## Exact-counting lemmas for the ingestor (claim C2) -/

/-- Contribution of one log line to a platform's actions counter. -/
def action_weight : LogLine → Nat
  | .action _ => 1
  | _ => 0

theorem platform_actions_count_add_action (p : String) (st : SimulationRunState)
    (a : AgentAction) (now : String) (h : a.platform = p) :
    platform_actions_count p (add_action st a now)
      = platform_actions_count p st + 1 := by
  obtain ⟨h1, h2⟩ := add_action_counts st a now
  by_cases hp : p = "twitter"
  · subst hp
    simp [platform_actions_count, h1, h]
  · simp [platform_actions_count, hp, h2, h]

theorem platform_actions_count_set_current_round (p : String)
    (st : SimulationRunState) (r : Int) :
    platform_actions_count p { st with current_round := r }
      = platform_actions_count p st := by
  by_cases hp : p = "twitter" <;> simp [platform_actions_count, hp]

theorem process_line_event_counts (p : String) (twE rdE : Bool) (now : String)
    (st : SimulationRunState) (e : LogEvent) :
    (process_line p twE rdE now st (.event e)).twitter_actions_count
        = st.twitter_actions_count
    ∧ (process_line p twE rdE now st (.event e)).reddit_actions_count
        = st.reddit_actions_count := by
  simp only [process_line]
  split_ifs <;> simp

theorem platform_actions_count_process_line (p : String) (twE rdE : Bool)
    (now : String) (st : SimulationRunState) (l : LogLine) :
    platform_actions_count p (process_line p twE rdE now st l)
      = platform_actions_count p st + action_weight l := by
  cases l with
  | blank => simp [process_line, action_weight]
  | invalid => simp [process_line, action_weight]
  | event e =>
    obtain ⟨h1, h2⟩ := process_line_event_counts p twE rdE now st e
    by_cases hp : p = "twitter"
    · subst hp
      simp [platform_actions_count, h1, action_weight]
    · simp [platform_actions_count, hp, h2, action_weight]
  | action a =>
    simp only [process_line, action_weight]
    split
    · rw [platform_actions_count_set_current_round,
        platform_actions_count_add_action p st _ now rfl]
    · rw [platform_actions_count_add_action p st _ now rfl]

theorem platform_actions_count_foldl (p : String) (twE rdE : Bool)
    (now : String) :
    ∀ (ll : List LogLine) (st : SimulationRunState),
      platform_actions_count p (ll.foldl (process_line p twE rdE now) st)
        = platform_actions_count p st + count_action_lines ll := by
  intro ll
  induction ll with
  | nil => intro st; simp [count_action_lines]
  | cons l ll ih =>
    intro st
    have hstep : List.foldl (process_line p twE rdE now) st (l :: ll)
        = List.foldl (process_line p twE rdE now)
            (process_line p twE rdE now st l) ll := rfl
    rw [hstep, ih, platform_actions_count_process_line]
    simp only [count_action_lines, List.countP_cons]
    cases l <;> simp [action_weight, is_action_line] <;> omega

theorem drop_eq_take_drop_append {α : Type} (file : List α) (pos n : Nat)
    (hpos : pos ≤ n) (hn : n ≤ file.length) :
    file.drop pos = (file.take n).drop pos ++ file.drop n := by
  conv_lhs => rw [← List.take_append_drop n file]
  rw [List.drop_append_eq_append_drop]
  have hlen : (file.take n).length = n := by
    rw [List.length_take]; omega
  rw [hlen]
  have hz : pos - n = 0 := by omega
  rw [hz, List.drop_zero]

theorem monitor_polls_count_invariant (p : String) (twE rdE : Bool)
    (now : String) (file : List LogLine) :
    ∀ (polls : List LogPoll) (st : SimulationRunState) (pos : Nat),
      pos ≤ file.length →
      (∀ q ∈ polls, pos ≤ q.seen) →
      (∀ q ∈ polls, q.seen ≤ file.length) →
      List.Pairwise (fun a b => a.seen ≤ b.seen) polls →
      (monitor_polls p twE rdE now file polls (st, pos)).2 ≤ file.length ∧
      platform_actions_count p (monitor_polls p twE rdE now file polls (st, pos)).1
          + count_action_lines
              (file.drop (monitor_polls p twE rdE now file polls (st, pos)).2)
        = platform_actions_count p st + count_action_lines (file.drop pos) := by
  intro polls
  induction polls with
  | nil =>
    intro st pos h1 _ _ _
    exact ⟨h1, rfl⟩
  | cons q polls ih =>
    intro st pos hpos hge hle hpair
    have hstep : monitor_polls p twE rdE now file (q :: polls) (st, pos)
        = monitor_polls p twE rdE now file polls
            (monitor_poll_step p twE rdE now file (st, pos) q) := rfl
    obtain ⟨hhead, htail⟩ := List.pairwise_cons.mp hpair
    by_cases hok : q.ok = true
    · have hq1 : pos ≤ q.seen := hge q (List.mem_cons_self _ _)
      have hq2 : q.seen ≤ file.length := hle q (List.mem_cons_self _ _)
      have hstep2 : monitor_poll_step p twE rdE now file (st, pos) q
          = (((file.take q.seen).drop pos).foldl (process_line p twE rdE now) st,
             q.seen) := by
        simp only [monitor_poll_step, hok, if_true, read_action_log]
        rw [List.length_take]
        congr 1
        omega
      rw [hstep, hstep2]
      obtain ⟨g1, g2⟩ := ih _ q.seen hq2 (fun r hr => hhead r hr)
        (fun r hr => hle r (List.mem_cons_of_mem _ hr)) htail
      refine ⟨g1, ?_⟩
      rw [g2, platform_actions_count_foldl]
      have hsplit := drop_eq_take_drop_append file pos q.seen hq1 hq2
      have hcount : count_action_lines (file.drop pos)
          = count_action_lines ((file.take q.seen).drop pos)
            + count_action_lines (file.drop q.seen) := by
        rw [hsplit]
        simp [count_action_lines, List.countP_append]
      omega
    · have hstep2 : monitor_poll_step p twE rdE now file (st, pos) q
          = (st, pos) := by
        simp [monitor_poll_step, hok]
      rw [hstep, hstep2]
      exact ih st pos hpos (fun r hr => hge r (List.mem_cons_of_mem _ hr))
        (fun r hr => hle r (List.mem_cons_of_mem _ hr)) htail

/-- C2: for every log file (a sequence of JSON lines) and every
append-only chunking of the monitor's reads across polls — each read
resuming from the offset returned by the previous read, failed reads
(swallowed and retried next tick) leaving the offset unchanged — the final
read pass leaves the platform's actions counter equal to exactly the
number of action lines in the file: no line is counted twice and none is
skipped. -/
theorem c2_chunked_reads_count_exactly (p : String) (twE rdE : Bool)
    (now : String) (file : List LogLine) (polls : List LogPoll)
    (st0 : SimulationRunState)
    (hseen : ∀ q ∈ polls, q.seen ≤ file.length)
    (hmono : List.Pairwise (fun a b => a.seen ≤ b.seen) polls) :
    platform_actions_count p
        (read_action_log p twE rdE now file
          (monitor_polls p twE rdE now file polls (st0, 0)).2
          (monitor_polls p twE rdE now file polls (st0, 0)).1).1
      = platform_actions_count p st0 + count_action_lines file := by
  obtain ⟨h1, h2⟩ := monitor_polls_count_invariant p twE rdE now file polls st0 0
    (Nat.zero_le _) (fun q _ => Nat.zero_le _) hseen hmono
  simp only [read_action_log]
  rw [platform_actions_count_foldl]
  simp only [List.drop_zero] at h2
  omega

/-- A concrete five-line log (two action lines, two events, one blank) for
the C2 witness. -/
def c2_example_file : List LogLine :=
  [LogLine.action {}, LogLine.event { event_type := "round_end", round := 1 },
   LogLine.action { round := 1 }, LogLine.blank,
   LogLine.event { event_type := "simulation_end" }]

/-- Three polls: a successful partial read, a failed read, and a read of
the whole file, for the C2 witness. -/
def c2_example_polls : List LogPoll :=
  [⟨2, true⟩, ⟨3, false⟩, ⟨5, true⟩]

theorem c2_chunked_reads_count_exactly_witness :
    platform_actions_count "twitter"
        (read_action_log "twitter" true false "T" c2_example_file
          (monitor_polls "twitter" true false "T" c2_example_file c2_example_polls
            (initial_run_state "sim_1" "T0", 0)).2
          (monitor_polls "twitter" true false "T" c2_example_file c2_example_polls
            (initial_run_state "sim_1" "T0", 0)).1).1
      = platform_actions_count "twitter" (initial_run_state "sim_1" "T0")
          + count_action_lines c2_example_file :=
  c2_chunked_reads_count_exactly "twitter" true false "T" c2_example_file
    c2_example_polls (initial_run_state "sim_1" "T0") (by decide) (by decide)

/-- C5: the completion check used by the terminal-event path holds exactly
when every platform whose `actions.jsonl` exists has been observed
completed, with at least one such platform — and, in particular, a run
with a single declared platform (twitter only) transitions to COMPLETED as
soon as that platform's `simulation_end` event is processed, without
waiting on the platform that never started. -/
theorem c5_completion_iff_all_launched_platforms_ended :
    (∀ (twitterEnabled redditEnabled : Bool) (st : SimulationRunState),
      check_all_platforms_completed twitterEnabled redditEnabled st = true ↔
        ((twitterEnabled = true → st.twitter_completed = true)
          ∧ (redditEnabled = true → st.reddit_completed = true)
          ∧ (twitterEnabled = true ∨ redditEnabled = true)))
    ∧ (∀ (st : SimulationRunState) (now : String) (e : LogEvent),
      e.event_type = "simulation_end" →
        (process_line "twitter" true false now st (LogLine.event e)).runner_status
            = RunnerStatus.completed
        ∧ (process_line "twitter" true false now st (LogLine.event e)).twitter_completed
            = true) := by
  constructor
  · intro twE rdE st
    cases twE <;> cases rdE <;>
      cases htc : st.twitter_completed <;> cases hrc : st.reddit_completed <;>
        simp [check_all_platforms_completed, htc, hrc]
  · intro st now e h
    simp [process_line, h, check_all_platforms_completed]

/-- A fresh run state for the C5 witness. -/
def c5_example_state : SimulationRunState := initial_run_state "sim_1" "T0"

/-- A terminal event for the C5 witness. -/
def c5_end_event : LogEvent := { event_type := "simulation_end" }

theorem c5_completion_iff_all_launched_platforms_ended_witness :
    (process_line "twitter" true false "T1" c5_example_state
        (LogLine.event c5_end_event)).runner_status = RunnerStatus.completed :=
  (c5_completion_iff_all_launched_platforms_ended.2 c5_example_state "T1"
    c5_end_event rfl).1

/-- A run state whose twitter platform was declared (its log exists) but
never reported its terminal event, for the C1 counterexample. -/
def c1_example_state : SimulationRunState :=
  { initial_run_state "sim_1" "T0" with twitter_running := true }

/-- Twitter's log at exit: one action line, no `simulation_end`. -/
def c1_twitter_log : List LogLine := [LogLine.action {}]

/-- C1 counterexample: the exit classification of `_monitor_simulation`
does NOT require the declared platforms' terminal events.  With exit code
0 and a declared twitter platform that never emitted `simulation_end`
(`twitter_completed` still false after the final read pass), the run is
classified COMPLETED, where the claim requires FAILED. -/
theorem c1_counterexample_completed_without_terminal_events :
    (monitor_finalize true false c1_twitter_log [] 0 0 0 (some "log text") "T1"
        c1_example_state).runner_status = RunnerStatus.completed
    ∧ (monitor_finalize true false c1_twitter_log [] 0 0 0 (some "log text") "T1"
        c1_example_state).twitter_completed = false := by
  constructor <;> rfl

/-- C1 (amended): on process exit, after the final read pass, the run is
classified by exit code alone — 0 ⇒ COMPLETED (with `completed_at` set),
regardless of whether the declared platforms reported their terminal
events; non-zero ⇒ FAILED with the error field embedding the trailing
2000-character excerpt of `simulation.log`; both platform running flags
are cleared. -/
theorem c1_exit_code_classification (twitterEnabled redditEnabled : Bool)
    (twitterFile redditFile : List LogLine) (twitterPos redditPos : Nat)
    (exitCode : Int) (mainLog now : String) (st : SimulationRunState) :
    (monitor_finalize twitterEnabled redditEnabled twitterFile redditFile
        twitterPos redditPos exitCode (some mainLog) now st).runner_status
        = (if exitCode = 0 then RunnerStatus.completed else RunnerStatus.failed)
    ∧ (exitCode = 0 →
        (monitor_finalize twitterEnabled redditEnabled twitterFile redditFile
          twitterPos redditPos exitCode (some mainLog) now st).completed_at
          = some now)
    ∧ (exitCode ≠ 0 →
        (monitor_finalize twitterEnabled redditEnabled twitterFile redditFile
          twitterPos redditPos exitCode (some mainLog) now st).error
          = some ("进程退出码: " ++ toString exitCode ++ ", 错误: "
              ++ lastChars 2000 mainLog))
    ∧ (monitor_finalize twitterEnabled redditEnabled twitterFile redditFile
        twitterPos redditPos exitCode (some mainLog) now st).twitter_running
        = false
    ∧ (monitor_finalize twitterEnabled redditEnabled twitterFile redditFile
        twitterPos redditPos exitCode (some mainLog) now st).reddit_running
        = false := by
  unfold monitor_finalize
  by_cases h : exitCode = 0 <;> simp [h]

theorem c1_exit_code_classification_witness :
    (monitor_finalize true false c1_twitter_log [] 0 0 3 (some "boom") "T1"
        c1_example_state).runner_status = RunnerStatus.failed
    ∧ (monitor_finalize true false c1_twitter_log [] 0 0 3 (some "boom") "T1"
        c1_example_state).error
        = some ("进程退出码: " ++ toString (3 : Int) ++ ", 错误: "
            ++ lastChars 2000 "boom") := by
  obtain ⟨h1, -, h3, -, -⟩ := c1_exit_code_classification true false
    c1_twitter_log [] 0 0 3 "boom" "T1" c1_example_state
  exact ⟨by simpa using h1, h3 (by decide)⟩

/-- C6: `start_simulation` on a run whose current state is RUNNING or
STARTING raises the duplicate-start error before performing any effect: no
state snapshot is saved, no process is launched, no monitor thread is
started. -/
theorem c6_duplicate_start_rejected_without_effects (simulation_id : String)
    (st : SimulationRunState) (configExists : Bool) (cfg : TimeConfig)
    (max_rounds : Option Int) (enable_graph_memory_update : Bool)
    (graph_id : Option String) (platform : String)
    (scriptExists launchOk : Bool) (launchErrorMsg : String) (pid : Int)
    (now : String)
    (h : st.runner_status = RunnerStatus.running ∨
         st.runner_status = RunnerStatus.starting) :
    start_simulation simulation_id (some st) configExists cfg max_rounds
        enable_graph_memory_update graph_id platform scriptExists launchOk
        launchErrorMsg pid now
      = { error := some StartError.alreadyRunning, effects := [] } := by
  simp [start_simulation, h]

/-- A RUNNING state for the C6 witness. -/
def c6_running_state : SimulationRunState :=
  { initial_run_state "sim_1" "T0" with runner_status := .running }

theorem c6_duplicate_start_rejected_without_effects_witness :
    start_simulation "sim_1" (some c6_running_state) true {} none false none
        "parallel" true true "" 123 "T1"
      = { error := some StartError.alreadyRunning, effects := [] } :=
  c6_duplicate_start_rejected_without_effects "sim_1" c6_running_state true {}
    none false none "parallel" true true "" 123 "T1" (Or.inl rfl)

/-- C8: `cleanup_simulation_logs` removes exactly the listed run-scoped
artifacts of the given run and nothing else: a file survives iff it is not
one of that run's run-scoped artifacts; `simulation_config.json` (and any
profile file) of the run is preserved; files of every other run are
untouched. -/
theorem c8_cleanup_deletes_only_run_scoped_artifacts :
    (∀ (fs : List (String × String)) (simulation_id : String)
        (f : String × String),
      f ∈ cleanup_simulation_logs fs simulation_id
        ↔ f ∈ fs ∧ ¬(f.1 = simulation_id ∧ f.2 ∈ run_scoped_artifacts))
    ∧ (∀ (fs : List (String × String)) (simulation_id : String),
      (simulation_id, "simulation_config.json") ∈ fs →
        (simulation_id, "simulation_config.json")
          ∈ cleanup_simulation_logs fs simulation_id)
    ∧ (∀ (fs : List (String × String)) (simulation_id : String)
        (f : String × String),
      f.1 ≠ simulation_id →
        (f ∈ cleanup_simulation_logs fs simulation_id ↔ f ∈ fs)) := by
  have hmain : ∀ (fs : List (String × String)) (sid : String)
      (f : String × String),
      f ∈ cleanup_simulation_logs fs sid
        ↔ f ∈ fs ∧ ¬(f.1 = sid ∧ f.2 ∈ run_scoped_artifacts) := by
    intro fs sid f
    have hcontains : (run_scoped_artifacts.contains f.2 = true) ↔
        f.2 ∈ run_scoped_artifacts := List.elem_iff
    rw [cleanup_simulation_logs, List.mem_filter]
    constructor
    · rintro ⟨hf, hb⟩
      simp only [Bool.not_eq_true', Bool.and_eq_false_iff,
        beq_eq_false_iff_ne, ne_eq] at hb
      refine ⟨hf, ?_⟩
      rintro ⟨h1, h2⟩
      rcases hb with hb | hb
      · exact hb h1
      · rw [hb] at hcontains
        exact Bool.false_ne_true (hcontains.mpr h2)
    · rintro ⟨hf, hn⟩
      refine ⟨hf, ?_⟩
      simp only [Bool.not_eq_true', Bool.and_eq_false_iff,
        beq_eq_false_iff_ne, ne_eq]
      by_cases h1 : f.1 = sid
      · exact Or.inr (Bool.eq_false_iff.mpr
          (fun hct => hn ⟨h1, hcontains.mp hct⟩))
      · exact Or.inl h1
  refine ⟨hmain, fun fs sid hmem => ?_, fun fs sid f hne => ?_⟩
  · exact (hmain fs sid _).mpr ⟨hmem, fun hc =>
      (by decide : ¬ ("simulation_config.json" ∈ run_scoped_artifacts)) hc.2⟩
  · rw [hmain]
    simp [hne]

/-- A five-file upload tree spanning two runs for the C8 witness. -/
def c8_example_fs : List (String × String) :=
  [("sim_1", "run_state.json"), ("sim_1", "simulation_config.json"),
   ("sim_1", "twitter/actions.jsonl"), ("sim_2", "run_state.json"),
   ("sim_1", "profiles/persona_0.json")]

theorem c8_cleanup_deletes_only_run_scoped_artifacts_witness :
    ("sim_2", "run_state.json") ∈ cleanup_simulation_logs c8_example_fs "sim_1"
      ↔ ("sim_2", "run_state.json") ∈ c8_example_fs :=
  c8_cleanup_deletes_only_run_scoped_artifacts.2.2 c8_example_fs "sim_1"
    ("sim_2", "run_state.json") (by decide)

/-! ## IPC claims C3 and C4 -/

theorem poll_for_response_timeout (command_id : String)
    (steps : Nat → Mailbox → Mailbox)
    (hsteps : ∀ (k : Nat) (m : Mailbox), findResponse m command_id = none →
      findResponse (steps k m) command_id = none) :
    ∀ (fuel k : Nat) (mb : Mailbox), findResponse mb command_id = none →
      (poll_for_response command_id steps k fuel mb).1 = SendOutcome.timedOut
      ∧ command_id ∉ (poll_for_response command_id steps k fuel mb).2.commands
      ∧ findResponse (poll_for_response command_id steps k fuel mb).2 command_id
          = none := by
  intro fuel
  induction fuel with
  | zero =>
    intro k mb hmb
    refine ⟨rfl, ?_, ?_⟩
    · simp [poll_for_response, removeCommandFile, List.mem_filter]
    · simpa [poll_for_response, removeCommandFile, findResponse] using hmb
  | succ fuel ih =>
    intro k mb hmb
    have h1 : findResponse (steps k mb) command_id = none := hsteps k mb hmb
    have hstep : poll_for_response command_id steps k (fuel + 1) mb
        = poll_for_response command_id steps (k + 1) fuel (steps k mb) := by
      simp [poll_for_response, h1]
    rw [hstep]
    exact ih (k + 1) (steps k mb) h1

/-- C3: when no response file for the command id ever appears, the client
polls until the caller-supplied timeout elapses (`⌈timeout /
poll_interval⌉` checks), then raises `TimeoutError` — an outcome distinct
from any parsed (even failed) response — and deletes the command file it
wrote, so neither a command file nor a response file for that command id
remains in the mailbox directories. -/
theorem c3_timeout_raises_and_leaves_no_stale_files (command_id : String)
    (timeout poll_interval : ℚ) (steps : Nat → Mailbox → Mailbox)
    (mb : Mailbox)
    (hsteps : ∀ (k : Nat) (m : Mailbox), findResponse m command_id = none →
      findResponse (steps k m) command_id = none)
    (hinit : findResponse mb command_id = none) :
    (send_command command_id timeout poll_interval steps mb).1
        = SendOutcome.timedOut
    ∧ command_id ∉ (send_command command_id timeout poll_interval steps mb).2.commands
    ∧ findResponse (send_command command_id timeout poll_interval steps mb).2
        command_id = none := by
  have hw : findResponse (writeCommandFile mb command_id) command_id = none := by
    simpa [findResponse, writeCommandFile] using hinit
  exact poll_for_response_timeout command_id steps hsteps _ 0
    (writeCommandFile mb command_id) hw

/-- An empty mailbox (both directories empty) for the IPC witnesses. -/
def empty_mailbox : Mailbox := { commands := [], responses := [] }

theorem c3_timeout_raises_and_leaves_no_stale_files_witness :
    (send_command "cmd-1" 2 (1/2) (fun _ m => m) empty_mailbox).1
        = SendOutcome.timedOut
    ∧ "cmd-1" ∉ (send_command "cmd-1" 2 (1/2) (fun _ m => m) empty_mailbox).2.commands
    ∧ findResponse (send_command "cmd-1" 2 (1/2) (fun _ m => m) empty_mailbox).2
        "cmd-1" = none :=
  c3_timeout_raises_and_leaves_no_stale_files "cmd-1" 2 (1/2) (fun _ m => m)
    empty_mailbox (fun _ _ h => h) rfl

theorem poll_for_response_roundtrip (command_id : String)
    (response : IPCResponse) (hcid : response.command_id = command_id)
    (j : Nat) :
    ∀ (fuel k : Nat) (mb : Mailbox), findResponse mb command_id = none →
      k ≤ j → j < k + fuel →
      (poll_for_response command_id (serverRespondsAt j response) k fuel mb).1
          = SendOutcome.ok response
      ∧ command_id ∉
          (poll_for_response command_id (serverRespondsAt j response) k fuel mb).2.commands
      ∧ findResponse
          (poll_for_response command_id (serverRespondsAt j response) k fuel mb).2
          command_id = none := by
  intro fuel
  induction fuel with
  | zero =>
    intro k mb _ hk hj
    omega
  | succ fuel ih =>
    intro k mb hmb hk hj
    by_cases hkj : k = j
    · subst hkj
      have hfind : findResponse (serverRespondsAt k response k mb) command_id
          = some response := by
        simp [serverRespondsAt, send_response, findResponse, removeCommandFile,
          hcid]
      have hstep : poll_for_response command_id (serverRespondsAt k response) k
            (fuel + 1) mb
          = (SendOutcome.ok response,
             removeResponseFile
               (removeCommandFile (serverRespondsAt k response k mb) command_id)
               command_id) := by
        simp [poll_for_response, hfind]
      rw [hstep]
      refine ⟨rfl, ?_, ?_⟩
      · simp [removeResponseFile, removeCommandFile, List.mem_filter]
      · simp only [findResponse, removeResponseFile, removeCommandFile]
        have hnone : List.find? (fun pr => pr.1 == command_id)
            (List.filter (fun pr => pr.1 != command_id)
              (serverRespondsAt k response k mb).responses) = none := by
          rw [List.find?_eq_none]
          intro x hx
          have hne := (List.mem_filter.mp hx).2
          simp only [bne_iff_ne, ne_eq] at hne
          simp [hne]
        rw [hnone]
        rfl
    · have hkltj : k < j := lt_of_le_of_ne hk hkj
      have hsame : serverRespondsAt j response k mb = mb := by
        simp [serverRespondsAt, hkj]
      have hstep : poll_for_response command_id (serverRespondsAt j response) k
            (fuel + 1) mb
          = poll_for_response command_id (serverRespondsAt j response) (k + 1)
              fuel mb := by
        simp [poll_for_response, hsame, hmb]
      rw [hstep]
      exact ih (k + 1) mb hmb hkltj (by omega)

/-- C4: if the server consumes the command and writes its response (same
command id) via `send_response` before the client's timeout — here, just
before the client's `j`-th poll with `j` within the poll budget — then
`send_command` returns exactly that one response, bearing the command id
of the command that was sent, and afterwards neither the command file nor
the response file for that command id remains. -/
theorem c4_roundtrip_same_id_no_leak (command_id : String)
    (response : IPCResponse) (timeout poll_interval : ℚ) (j : Nat)
    (mb : Mailbox) (hcid : response.command_id = command_id)
    (hj : j < numChecks timeout poll_interval)
    (hinit : findResponse mb command_id = none) :
    (send_command command_id timeout poll_interval (serverRespondsAt j response)
        mb).1 = SendOutcome.ok response
    ∧ command_id ∉
        (send_command command_id timeout poll_interval (serverRespondsAt j response)
          mb).2.commands
    ∧ findResponse
        (send_command command_id timeout poll_interval (serverRespondsAt j response)
          mb).2 command_id = none := by
  have hw : findResponse (writeCommandFile mb command_id) command_id = none := by
    simpa [findResponse, writeCommandFile] using hinit
  exact poll_for_response_roundtrip command_id response hcid j _ 0
    (writeCommandFile mb command_id) hw (Nat.zero_le _) (by omega)

/-- A completed response for the C4 witness. -/
def c4_example_response : IPCResponse :=
  { command_id := "cmd-2", status := .completed,
    result := some [("answer", "ok")], timestamp := "T2" }

theorem c4_roundtrip_same_id_no_leak_witness :
    (send_command "cmd-2" 3 1 (serverRespondsAt 1 c4_example_response)
        empty_mailbox).1 = SendOutcome.ok c4_example_response
    ∧ "cmd-2" ∉
        (send_command "cmd-2" 3 1 (serverRespondsAt 1 c4_example_response)
          empty_mailbox).2.commands
    ∧ findResponse
        (send_command "cmd-2" 3 1 (serverRespondsAt 1 c4_example_response)
          empty_mailbox).2 "cmd-2" = none :=
  c4_roundtrip_same_id_no_leak "cmd-2" c4_example_response 3 1 1 empty_mailbox
    rfl (by norm_num [numChecks]) rfl
